import Mathlib

/-!
Verification of the session/streaming relay of the FlexAI fitness-chat
backend (src/index.js) against its specification.

The embedding below translates the request handlers of src/index.js into
pure Lean functions.  Conventions:

* Session identifiers are the numeric `Date.now()` values.  The source
  stores them as decimal strings (`Date.now().toString()`, line 81) and
  parses them back with `parseInt` (line 309); decimal printing and
  parsing are mutually inverse on these values, so the model works with
  the number directly.  A JS-falsy `sessionId` field (absent) is
  modelled as `none`.
* The in-memory `chatSessions` Map (line 47) becomes an association
  list from identifier to session state; `Map.get`, `Map.set`,
  `Map.delete` and the sweep loop become the list operations below.
* Time (`Date.now()` at the sweep, the ISO timestamp written into
  history items) is passed in as an explicit `now` parameter.
* The external Gemini call is a parameter of the handler
  (`ProviderBehavior`): the reply of `chat.sendMessage`, or the chunk
  sequence of `chat.sendMessageStream` together with whether the stream
  errors after those chunks.
-/

/-- One conversation turn as held by the provider chat object: a role
(the Gemini roles are "user" and "model") plus the text. -/
structure Turn where
  role : String
  text : String
deriving DecidableEq

/-- The state of one chat session: the accumulated turn history held by
the provider chat object created at `model.startChat` (line 85). -/
structure ChatSession where
  history : List Turn
deriving DecidableEq

/-- The `chatSessions` Map (src/index.js line 47) as an association
list from numeric session identifier to session state. -/
abbrev Store : Type := List (Nat × ChatSession)

/-- `chatSessions.get(sessionId)` (line 133). -/
def storeGet : Store → Nat → Option ChatSession
  | [], _ => none
  | (k, v) :: rest, sid => if k = sid then some v else storeGet rest sid

/-- `chatSessions.set(sessionId, chat)` (line 94): replaces the entry
with this key if present, otherwise appends it. -/
def storeSet : Store → Nat → ChatSession → Store
  | [], sid, v => [(sid, v)]
  | (k, w) :: rest, sid, v =>
      if k = sid then (sid, v) :: rest else (k, w) :: storeSet rest sid v

/-- `chatSessions.delete(sessionId)` (line 287): removes the entry with
this key. -/
def storeDelete : Store → Nat → Store
  | [], _ => []
  | (k, w) :: rest, sid =>
      if k = sid then storeDelete rest sid else (k, w) :: storeDelete rest sid

/-- The cleanup interval and TTL constant `oneHour = 60 * 60 * 1000`
milliseconds (line 306). -/
def oneHour : Nat := 60 * 60 * 1000

/-- The cleanup sweep (lines 304-315): removes every session whose age
`now - parseInt(sessionId)` exceeds the TTL.  In JS a session younger
than `now` by less than the TTL, or with a creation value above `now`
(negative age), is kept; truncated Nat subtraction yields the same
keep/remove decision. -/
def sweep (store : Store) (now ttl : Nat) : Store :=
  store.filter (fun p => !(decide (now - p.1 > ttl)))

/-- `POST /api/chat/start` (lines 78-95): allocates `Date.now()` as the
identifier and stores a chat with empty history.  The welcome message
(line 98) is only placed in the response, never in the history. -/
def startSession (now : Nat) (store : Store) : Nat × Store :=
  (now, storeSet store now ⟨[]⟩)

/-- A run of start-session calls, one per clock reading, returning the
issued identifiers in call order and the final store. -/
def runStarts : List Nat → Store → List Nat × Store
  | [], store => ([], store)
  | t :: ts, store =>
      let r := startSession t store
      let rest := runStarts ts r.2
      (r.1 :: rest.1, rest.2)

/-- One server-sent-events frame of the streaming branch: the JSON
objects written at lines 164-168 (`type: 'chunk'`), 172-176
(`type: 'complete'`) and 183-187 (`type: 'error'`). -/
inductive Frame where
  | chunk (text : String) (sessionId : Nat)
  | complete (fullText : String) (sessionId : Nat)
  | error (msg : String) (sessionId : Nat)
deriving DecidableEq

/-- One element of the `history` array returned by
`GET /api/chat/history/:sessionId` (lines 263-268). -/
structure HistoryItem where
  id : Nat
  text : String
  sender : String
  timestamp : Nat
deriving DecidableEq

/-- The observable response of a handler: an error JSON with its HTTP
status, a message JSON (`isOffline` true only on the fallback path), a
history JSON, or an open event-stream channel with its frames. -/
inductive Response where
  | jsonError (status : Nat) (error : String)
  | jsonMessage (text : String) (isOffline : Bool)
  | jsonHistory (items : List HistoryItem)
  | sse (frames : List Frame)
deriving DecidableEq

/-- The body of `POST /api/chat/message` (line 123):
`const { sessionId, message, stream = false } = req.body`. -/
structure MessageRequest where
  sessionId : Option Nat
  message : Option String
  stream : Bool

/-- The outcome of the external Gemini call for one request:
`syncReply` is the reply of `chat.sendMessage` (`none` = the call
throws); `streamChunks` are the chunk texts produced by
`chat.sendMessageStream`, and `streamFails` says whether the stream
errors after producing them instead of completing. -/
structure ProviderBehavior where
  syncReply : Option String
  streamChunks : List String
  streamFails : Bool

/-- `fullResponse` accumulation of the streaming loop (lines 157-161):
`fullResponse += chunkText` starting from the empty string. -/
def concatAll (l : List String) : String := l.foldl (fun a b => a ++ b) ""

/-- Modelled from the spec: the history accumulation of the provider
chat object, which is not part of this repository (src/index.js only
calls `chat.sendMessage` / `chat.sendMessageStream`).  Spec section 4.2:
sendSync and a completed sendStream append the user turn and then the
assistant reply to the session history. -/
def appendExchange (chat : ChatSession) (userText modelText : String) : ChatSession :=
  ⟨chat.history ++ [⟨"user", userText⟩, ⟨"model", modelText⟩]⟩

/-- JS `String.prototype.startsWith` on character lists. -/
def startsWithL : List Char → List Char → Bool
  | _, [] => true
  | [], _ :: _ => false
  | c :: cs, p :: ps => c = p && startsWithL cs ps

/-- Substring occurrence on character lists (JS
`String.prototype.includes`). -/
def containsL (pat : List Char) : List Char → Bool
  | [] => pat.isEmpty
  | c :: cs => startsWithL (c :: cs) pat || containsL pat cs

/-- `lowerMessage.includes(keyword)` (lines 223-227). -/
def includes (s pat : String) : Bool := containsL pat.toList s.toList

/-- `message.toLowerCase()` (line 220); the keywords are ASCII, for
which `Char.toLower` agrees with the JS conversion. -/
def jsToLower (s : String) : String := ⟨s.toList.map Char.toLower⟩

/-- `fallbackResponses.workout` (line 214). -/
def fallbackWorkout : String :=
  "Quick workout tip: Try 10 push-ups, 15 squats, 30-sec plank. Repeat 3x! 💪"

/-- `fallbackResponses.diet` (line 215). -/
def fallbackDiet : String :=
  "Quick nutrition tip: Fill half your plate with veggies, quarter with protein, quarter with complex carbs! 🥗"

/-- `fallbackResponses.motivation` (line 216). -/
def fallbackMotivation : String :=
  "You\x27re already winning by asking! 🏆 Every small step counts. Keep going, champion!"

/-- `fallbackResponses.default` (line 217). -/
def fallbackDefault : String :=
  "I\x27m having trouble connecting right now. Please try again! 🤖"

/-- The keyword selection of the fallback text (lines 220-229). -/
def selectFallback (msg : String) : String :=
  let lowerMessage := jsToLower msg
  if includes lowerMessage "workout" || includes lowerMessage "exercise" then
    fallbackWorkout
  else if includes lowerMessage "diet" || includes lowerMessage "nutrition" then
    fallbackDiet
  else if includes lowerMessage "motivation" then
    fallbackMotivation
  else
    fallbackDefault

/-- `POST /api/chat/message` (lines 120-242).  Validation (`!sessionId
|| !message`, line 126) rejects a missing session identifier and a
missing or empty message with 400; an unknown session gets 404 (line
136).  The streaming branch opens the event-stream channel
(`res.writeHead`, line 146) before the provider call and emits one
chunk frame per chunk, then a complete frame, or a terminal error
frame if the stream fails (lines 154-189).  The non-streaming branch
returns the provider reply, or on provider failure the keyword-matched
fallback with " (Offline mode)" appended and `isOffline: true` (lines
191-241).  History mutation follows `appendExchange`; a failed call
(fallback or stream error) leaves the store untouched. -/
def handleMessage (req : MessageRequest) (store : Store) (prov : ProviderBehavior) :
    Response × Store :=
  match req.sessionId, req.message with
  | some sid, some msg =>
    if msg = "" then
      (Response.jsonError 400 "Session ID and message are required", store)
    else
      match storeGet store sid with
      | none =>
          (Response.jsonError 404 "Chat session not found. Please start a new session.",
           store)
      | some chat =>
          if req.stream then
            if prov.streamFails then
              (Response.sse (prov.streamChunks.map (fun c => Frame.chunk c sid) ++
                  [Frame.error "Streaming failed" sid]), store)
            else
              (Response.sse (prov.streamChunks.map (fun c => Frame.chunk c sid) ++
                  [Frame.complete (concatAll prov.streamChunks) sid]),
               storeSet store sid (appendExchange chat msg (concatAll prov.streamChunks)))
          else
            match prov.syncReply with
            | some reply =>
                (Response.jsonMessage reply false,
                 storeSet store sid (appendExchange chat msg reply))
            | none =>
                (Response.jsonMessage (selectFallback msg ++ " (Offline mode)") true,
                 store)
  | _, _ => (Response.jsonError 400 "Session ID and message are required", store)

/-- `history.map((item, index) => ...)` (lines 263-268): item text and
sender from the turn (role "user" maps to sender "user", anything else
to "bot"), `id` from the map index, and the timestamp from
`new Date().toISOString()` evaluated during this request. -/
def historyItemsFrom (now : Nat) (i : Nat) : List Turn → List HistoryItem
  | [] => []
  | t :: ts =>
      ⟨i, t.text, if t.role = "user" then "user" else "bot", now⟩ ::
        historyItemsFrom now (i + 1) ts

/-- `GET /api/chat/history/:sessionId` (lines 245-278). -/
def handleHistory (sid : Nat) (store : Store) (now : Nat) : Response :=
  match storeGet store sid with
  | none => Response.jsonError 404 "Chat session not found"
  | some chat => Response.jsonHistory (historyItemsFrom now 0 chat.history)

/-- A sequence of non-streaming send-message calls on one session, each
with the provider reply it receives; returns the final store. -/
def runCalls (store : Store) (sid : Nat) : List (String × String) → Store
  | [] => store
  | (m, r) :: rest =>
      runCalls (handleMessage ⟨some sid, some m, false⟩ store ⟨some r, [], false⟩).2 sid rest

/-- The user/assistant turn pair appended by each successful call, in
call order. -/
def interleaveTurns : List (String × String) → List Turn
  | [] => []
  | (m, r) :: rest => ⟨"user", m⟩ :: ⟨"model", r⟩ :: interleaveTurns rest

/-- Texts of the chunk frames of a frame list, in emission order. -/
def chunkTexts : List Frame → List String
  | [] => []
  | Frame.chunk t _ :: rest => t :: chunkTexts rest
  | Frame.complete _ _ :: rest => chunkTexts rest
  | Frame.error _ _ :: rest => chunkTexts rest

/-- fullText fields of the complete frames of a frame list. -/
def completeTexts : List Frame → List String
  | [] => []
  | Frame.chunk _ _ :: rest => completeTexts rest
  | Frame.complete f _ :: rest => f :: completeTexts rest
  | Frame.error _ _ :: rest => completeTexts rest

/-- The frames carried by a response when it is an event stream. -/
def emittedFrames : Response → List Frame
  | Response.sse fs => fs
  | _ => []

/-- Whether a response is the offline fallback: a message JSON flagged
`isOffline: true`. -/
def isOfflineFallback : Response → Bool
  | Response.jsonMessage _ true => true
  | _ => false

/-- A one-session store used to instantiate theorems at concrete
inputs. -/
def oneSessionStore : Store := [(1, ⟨[]⟩)]

/-! ## Helper lemmas about the store operations -/

/-- Looking up a key right after setting it yields the stored value. -/
theorem storeGet_storeSet_self (s : Store) (sid : Nat) (v : ChatSession) :
    storeGet (storeSet s sid v) sid = some v := by
  induction s with
  | nil => simp [storeSet, storeGet]
  | cons p rest ih =>
    obtain ⟨k, w⟩ := p
    by_cases h : k = sid
    · simp [storeSet, h, storeGet]
    · simp [storeSet, h, storeGet, ih]

/-- A deleted key is no longer retrievable. -/
theorem storeGet_storeDelete_self (s : Store) (sid : Nat) :
    storeGet (storeDelete s sid) sid = none := by
  induction s with
  | nil => rfl
  | cons p rest ih =>
    obtain ⟨k, w⟩ := p
    by_cases h : k = sid
    · simp [storeDelete, h, ih]
    · simp [storeDelete, h, storeGet, ih]

/-- A key whose age exceeds the TTL is gone after the sweep. -/
theorem storeGet_sweep_of_removed (s : Store) (sid now ttl : Nat) (h : now - sid > ttl) :
    storeGet (sweep s now ttl) sid = none := by
  induction s with
  | nil => rfl
  | cons p rest ih =>
    obtain ⟨k, w⟩ := p
    by_cases hk : k = sid
    · subst hk
      simp only [sweep, List.filter_cons]
      have : (!(decide (now - k > ttl))) = false := by simp [h]
      rw [this]
      exact ih
    · simp only [sweep, List.filter_cons]
      by_cases hp : now - k > ttl
      · have : (!(decide (now - k > ttl))) = false := by simp [hp]
        rw [this]
        exact ih
      · have : (!(decide (now - k > ttl))) = true := by simp [hp]
        rw [this]
        simpa [storeGet, hk] using ih

/-- A key whose age does not exceed the TTL is untouched by the sweep. -/
theorem storeGet_sweep_of_kept (s : Store) (sid now ttl : Nat) (h : ¬(now - sid > ttl)) :
    storeGet (sweep s now ttl) sid = storeGet s sid := by
  induction s with
  | nil => rfl
  | cons p rest ih =>
    obtain ⟨k, w⟩ := p
    by_cases hk : k = sid
    · subst hk
      simp only [sweep, List.filter_cons]
      have : (!(decide (now - k > ttl))) = true := by simp [h]
      rw [this]
      simp [storeGet]
    · simp only [sweep, List.filter_cons]
      by_cases hp : now - k > ttl
      · have : (!(decide (now - k > ttl))) = false := by simp [hp]
        rw [this]
        simpa [storeGet, hk] using ih
      · have : (!(decide (now - k > ttl))) = true := by simp [hp]
        rw [this]
        simpa [storeGet, hk] using ih

/-- Exactly the entries not older than the TTL survive the sweep. -/
theorem mem_sweep_iff (s : Store) (now ttl : Nat) (p : Nat × ChatSession) :
    p ∈ sweep s now ttl ↔ p ∈ s ∧ ¬ p.1 < now - ttl := by
  have hiff : (now - p.1 > ttl) ↔ (p.1 < now - ttl) := by omega
  simp [sweep, List.mem_filter, hiff]

/-- The identifiers issued by a run of start-session calls are exactly
the observed clock values, in order. -/
theorem runStarts_ids (ts : List Nat) (store : Store) : (runStarts ts store).1 = ts := by
  induction ts generalizing store with
  | nil => rfl
  | cons t ts2 ih => simp [runStarts, startSession, ih]

/-- Each call contributes two turns. -/
theorem interleaveTurns_length (calls : List (String × String)) :
    (interleaveTurns calls).length = 2 * calls.length := by
  induction calls with
  | nil => rfl
  | cons p rest ih =>
    obtain ⟨m, r⟩ := p
    simp [interleaveTurns, ih]
    omega

/-- Running successful non-streaming calls appends the user/assistant
pair of each call, in call order, to the history found at the start. -/
theorem runCalls_getHistory (sid : Nat) (calls : List (String × String)) :
    ∀ (store : Store) (hist : List Turn),
      (∀ p ∈ calls, p.1 ≠ "") →
      storeGet store sid = some ⟨hist⟩ →
      storeGet (runCalls store sid calls) sid = some ⟨hist ++ interleaveTurns calls⟩ := by
  induction calls with
  | nil =>
    intro store hist _ h
    simpa [runCalls, interleaveTurns] using h
  | cons p rest ih =>
    obtain ⟨m, r⟩ := p
    intro store hist hne h
    have hm : m ≠ "" := hne (m, r) (by simp)
    have hstep : (handleMessage ⟨some sid, some m, false⟩ store ⟨some r, [], false⟩).2
        = storeSet store sid ⟨hist ++ [⟨"user", m⟩, ⟨"model", r⟩]⟩ := by
      simp [handleMessage, hm, h, appendExchange]
    show storeGet
        (runCalls (handleMessage ⟨some sid, some m, false⟩ store ⟨some r, [], false⟩).2 sid rest)
        sid = _
    rw [hstep]
    have hrec := ih (storeSet store sid ⟨hist ++ [⟨"user", m⟩, ⟨"model", r⟩]⟩)
      (hist ++ [⟨"user", m⟩, ⟨"model", r⟩])
      (fun q hq => hne q (by simp [hq]))
      (storeGet_storeSet_self store sid ⟨hist ++ [⟨"user", m⟩, ⟨"model", r⟩]⟩)
    simpa [interleaveTurns, List.append_assoc] using hrec

/-- Chunk texts of a frame list built from chunk frames followed by a
remainder. -/
theorem chunkTexts_map_chunk (sid : Nat) (l : List String) (rest : List Frame) :
    chunkTexts (l.map (fun c => Frame.chunk c sid) ++ rest) = l ++ chunkTexts rest := by
  induction l with
  | nil => simp
  | cons c cs ih => simp [chunkTexts, ih]

/-- Complete-frame texts ignore the leading chunk frames. -/
theorem completeTexts_map_chunk (sid : Nat) (l : List String) (rest : List Frame) :
    completeTexts (l.map (fun c => Frame.chunk c sid) ++ rest) = completeTexts rest := by
  induction l with
  | nil => simp
  | cons c cs ih => simp [completeTexts, ih]

/-- Every item produced by the history mapping carries the request
time, and its id is the start index plus its position. -/
theorem historyItemsFrom_get (now : Nat) (h : List Turn) :
    ∀ (j i : Nat) (hi : i < (historyItemsFrom now j h).length),
      ((historyItemsFrom now j h).get ⟨i, hi⟩).timestamp = now ∧
      ((historyItemsFrom now j h).get ⟨i, hi⟩).id = j + i := by
  induction h with
  | nil => intro j i hi; simp [historyItemsFrom] at hi
  | cons t ts ih =>
    intro j i hi
    cases i with
    | zero => exact ⟨rfl, rfl⟩
    | succ i2 =>
      have hi2 : i2 < (historyItemsFrom now (j + 1) ts).length := by
        have := hi
        simp only [historyItemsFrom, List.length_cons] at this
        omega
      obtain ⟨h1, h2⟩ := ih (j + 1) i2 hi2
      exact ⟨h1, h2.trans (by omega)⟩

/-! ## Claim theorems -/

/-- Claim C1: for every session and every sequence of N non-streaming
send-message calls on it whose provider call succeeds, the retrievable
history afterwards is exactly the 2N turns, in call order: for each
call the user turn with the sent text followed by the assistant (role
"model") turn with the reply. -/
theorem message_history_two_turns_per_call (sid : Nat) (calls : List (String × String))
    (store : Store) (hmsg : ∀ p ∈ calls, p.1 ≠ "")
    (h0 : storeGet store sid = some ⟨[]⟩) :
    storeGet (runCalls store sid calls) sid = some ⟨interleaveTurns calls⟩ ∧
    (interleaveTurns calls).length = 2 * calls.length := by
  refine ⟨?_, interleaveTurns_length calls⟩
  simpa using runCalls_getHistory sid calls store [] hmsg h0

/-- Witness for C1 at a concrete one-call run. -/
theorem message_history_two_turns_per_call_witness :
    storeGet (runCalls oneSessionStore 1 [("hi", "hello")]) 1
      = some ⟨interleaveTurns [("hi", "hello")]⟩ ∧
    (interleaveTurns [("hi", "hello")]).length
      = 2 * ([("hi", "hello")] : List (String × String)).length :=
  message_history_two_turns_per_call 1 [("hi", "hello")] oneSessionStore (by decide) rfl

/-- Claim C2: on a successful streaming call the emitted frames are the
chunk frames followed by one final complete frame, and the
concatenation in emission order of the chunk texts equals the complete
frame fullText. -/
theorem stream_chunks_concat_complete (sid : Nat) (msg : String) (sr : Option String)
    (chunks : List String) (store : Store) (chat : ChatSession)
    (hmsg : msg ≠ "") (hc : storeGet store sid = some chat) :
    (handleMessage ⟨some sid, some msg, true⟩ store ⟨sr, chunks, false⟩).1
      = Response.sse (chunks.map (fun c => Frame.chunk c sid) ++
          [Frame.complete (concatAll chunks) sid]) ∧
    chunkTexts (emittedFrames
        (handleMessage ⟨some sid, some msg, true⟩ store ⟨sr, chunks, false⟩).1)
      = chunks ∧
    completeTexts (emittedFrames
        (handleMessage ⟨some sid, some msg, true⟩ store ⟨sr, chunks, false⟩).1)
      = [concatAll (chunkTexts (emittedFrames
          (handleMessage ⟨some sid, some msg, true⟩ store ⟨sr, chunks, false⟩).1))] := by
  have h1 : (handleMessage ⟨some sid, some msg, true⟩ store ⟨sr, chunks, false⟩).1
      = Response.sse (chunks.map (fun c => Frame.chunk c sid) ++
          [Frame.complete (concatAll chunks) sid]) := by
    simp [handleMessage, hmsg, hc]
  refine ⟨h1, ?_, ?_⟩
  · rw [h1]
    simp [emittedFrames, chunkTexts_map_chunk, chunkTexts]
  · rw [h1]
    simp [emittedFrames, completeTexts_map_chunk, completeTexts,
      chunkTexts_map_chunk, chunkTexts]

/-- Witness for C2 at a concrete two-chunk stream. -/
theorem stream_chunks_concat_complete_witness :
    (handleMessage ⟨some 1, some "hi", true⟩ oneSessionStore ⟨none, ["a", "b"], false⟩).1
      = Response.sse ((["a", "b"]).map (fun c => Frame.chunk c 1) ++
          [Frame.complete (concatAll ["a", "b"]) 1]) ∧
    chunkTexts (emittedFrames
        (handleMessage ⟨some 1, some "hi", true⟩ oneSessionStore ⟨none, ["a", "b"], false⟩).1)
      = ["a", "b"] ∧
    completeTexts (emittedFrames
        (handleMessage ⟨some 1, some "hi", true⟩ oneSessionStore ⟨none, ["a", "b"], false⟩).1)
      = [concatAll (chunkTexts (emittedFrames
          (handleMessage ⟨some 1, some "hi", true⟩ oneSessionStore
            ⟨none, ["a", "b"], false⟩).1))] :=
  stream_chunks_concat_complete 1 "hi" none ["a", "b"] oneSessionStore ⟨[]⟩ (by decide) rfl

/-- Claim C3: when the provider stream fails after the stream channel
is open, the consumer gets the already-emitted chunk frames followed by
a terminal error frame on that stream (not a non-stream error
response), and the partial text is discarded: the store, hence the
session history, is unchanged. -/
theorem stream_error_discards_partial (sid : Nat) (msg : String) (sr : Option String)
    (chunks : List String) (store : Store) (chat : ChatSession)
    (hmsg : msg ≠ "") (hc : storeGet store sid = some chat) :
    handleMessage ⟨some sid, some msg, true⟩ store ⟨sr, chunks, true⟩
      = (Response.sse (chunks.map (fun c => Frame.chunk c sid) ++
          [Frame.error "Streaming failed" sid]), store) := by
  simp [handleMessage, hmsg, hc]

/-- Witness for C3 at a concrete interrupted stream. -/
theorem stream_error_discards_partial_witness :
    handleMessage ⟨some 1, some "hi", true⟩ oneSessionStore ⟨none, ["he", "llo"], true⟩
      = (Response.sse ((["he", "llo"]).map (fun c => Frame.chunk c 1) ++
          [Frame.error "Streaming failed" 1]), oneSessionStore) :=
  stream_error_discards_partial 1 "hi" none ["he", "llo"] oneSessionStore ⟨[]⟩
    (by decide) rfl

/-- Counterexample to C4: a streaming call whose provider call fails
immediately, before any stream content is produced, is answered with a
terminal in-stream error frame, not with the offline-fallback JSON:
the source opens the stream channel (res.writeHead, line 146) before
the provider call is made. -/
theorem stream_prefail_not_fallback_cx :
    (handleMessage ⟨some 1, some "hi", true⟩ oneSessionStore ⟨none, [], true⟩).1
      = Response.sse [Frame.error "Streaming failed" 1] ∧
    isOfflineFallback
        (handleMessage ⟨some 1, some "hi", true⟩ oneSessionStore ⟨none, [], true⟩).1
      = false := by decide

/-- Amended C4: with the streaming flag set the stream channel is
opened before the provider call, so a provider failure, even one
before the first chunk, is delivered as a terminal in-stream error
event; the offline fallback is never the response of a streaming
call. -/
theorem streaming_failure_always_in_stream (sid : Nat) (msg : String) (sr : Option String)
    (store : Store) (chat : ChatSession)
    (hmsg : msg ≠ "") (hc : storeGet store sid = some chat) :
    (handleMessage ⟨some sid, some msg, true⟩ store ⟨sr, [], true⟩).1
      = Response.sse [Frame.error "Streaming failed" sid] ∧
    ∀ (req : MessageRequest) (s : Store) (p : ProviderBehavior),
      req.stream = true → isOfflineFallback (handleMessage req s p).1 = false := by
  constructor
  · simp [handleMessage, hmsg, hc]
  · intro req s p hstream
    obtain ⟨sidOpt, msgOpt, st⟩ := req
    simp only at hstream
    subst hstream
    cases sidOpt with
    | none => simp [handleMessage, isOfflineFallback]
    | some sid2 =>
      cases msgOpt with
      | none => simp [handleMessage, isOfflineFallback]
      | some m =>
        by_cases hm : m = ""
        · simp [handleMessage, hm, isOfflineFallback]
        · cases hg : storeGet s sid2 with
          | none => simp [handleMessage, hm, hg, isOfflineFallback]
          | some ch =>
            by_cases hf : p.streamFails
            · simp [handleMessage, hm, hg, hf, isOfflineFallback]
            · simp [handleMessage, hm, hg, hf, isOfflineFallback]

/-- Witness for amended C4 at concrete inputs. -/
theorem streaming_failure_always_in_stream_witness :
    (handleMessage ⟨some 1, some "yo", true⟩ oneSessionStore ⟨some "r", [], true⟩).1
      = Response.sse [Frame.error "Streaming failed" 1] ∧
    isOfflineFallback (handleMessage ⟨some 2, some "x", true⟩ [] ⟨none, ["c"], true⟩).1
      = false := by
  obtain ⟨h1, h2⟩ := streaming_failure_always_in_stream 1 "yo" (some "r")
    oneSessionStore ⟨[]⟩ (by decide) rfl
  exact ⟨h1, h2 ⟨some 2, some "x", true⟩ [] ⟨none, ["c"], true⟩ rfl⟩

/-- Counterexample to C5: on provider failure for input "workout" the
returned text is the workout tip with " (Offline mode)" appended
(line 234), so it does not exactly equal the configured canned text. -/
theorem fallback_text_not_exact_canned_cx :
    (handleMessage ⟨some 1, some "workout", false⟩ oneSessionStore ⟨none, [], false⟩).1
      = Response.jsonMessage (fallbackWorkout ++ " (Offline mode)") true ∧
    (handleMessage ⟨some 1, some "workout", false⟩ oneSessionStore ⟨none, [], false⟩).1
      ≠ Response.jsonMessage fallbackWorkout true := by decide

/-- Amended C5: on non-streaming provider failure the response is
flagged isOffline and its text is the keyword-selected canned text
with " (Offline mode)" appended, the selection being a pure function
of the lowercased input with precedence workout/exercise, then
diet/nutrition, then motivation, else the default tip; the store is
unchanged. -/
theorem fallback_selection_offline (sid : Nat) (msg : String) (chunks : List String)
    (b : Bool) (store : Store) (chat : ChatSession)
    (hmsg : msg ≠ "") (hc : storeGet store sid = some chat) :
    handleMessage ⟨some sid, some msg, false⟩ store ⟨none, chunks, b⟩
      = (Response.jsonMessage (selectFallback msg ++ " (Offline mode)") true, store) ∧
    ((includes (jsToLower msg) "workout" || includes (jsToLower msg) "exercise") = true →
      selectFallback msg = fallbackWorkout) ∧
    ((includes (jsToLower msg) "workout" || includes (jsToLower msg) "exercise") = false →
      (includes (jsToLower msg) "diet" || includes (jsToLower msg) "nutrition") = true →
      selectFallback msg = fallbackDiet) ∧
    ((includes (jsToLower msg) "workout" || includes (jsToLower msg) "exercise") = false →
      (includes (jsToLower msg) "diet" || includes (jsToLower msg) "nutrition") = false →
      includes (jsToLower msg) "motivation" = true →
      selectFallback msg = fallbackMotivation) ∧
    ((includes (jsToLower msg) "workout" || includes (jsToLower msg) "exercise") = false →
      (includes (jsToLower msg) "diet" || includes (jsToLower msg) "nutrition") = false →
      includes (jsToLower msg) "motivation" = false →
      selectFallback msg = fallbackDefault) := by
  refine ⟨by simp [handleMessage, hmsg, hc], ?_, ?_, ?_, ?_⟩
  · intro h1
    simp [selectFallback, h1]
  · intro h1 h2
    simp [selectFallback, h1, h2]
  · intro h1 h2 h3
    simp [selectFallback, h1, h2, h3]
  · intro h1 h2 h3
    simp [selectFallback, h1, h2, h3]

/-- Witness for amended C5 at input "workout". -/
theorem fallback_selection_offline_witness :
    handleMessage ⟨some 1, some "workout", false⟩ oneSessionStore ⟨none, [], false⟩
      = (Response.jsonMessage (selectFallback "workout" ++ " (Offline mode)") true,
         oneSessionStore) ∧
    selectFallback "workout" = fallbackWorkout := by
  obtain ⟨h1, h2, _, _, _⟩ := fallback_selection_offline 1 "workout" [] false
    oneSessionStore ⟨[]⟩ (by decide) rfl
  exact ⟨h1, h2 (by decide)⟩

/-- Claim C6: a send-message call for an identifier that is not in the
store (never created, deleted, or swept) yields the 404 NotFound
response and leaves the store unchanged; deletion and an over-TTL
sweep both make the identifier unretrievable. -/
theorem unknown_session_not_found (sid : Nat) (msg : String) (st : Bool) (store : Store)
    (prov : ProviderBehavior) (hmsg : msg ≠ "") (h : storeGet store sid = none) :
    handleMessage ⟨some sid, some msg, st⟩ store prov
      = (Response.jsonError 404 "Chat session not found. Please start a new session.",
         store) ∧
    (∀ s : Store, storeGet (storeDelete s sid) sid = none) ∧
    (∀ (s : Store) (now : Nat), sid < now - oneHour →
      storeGet (sweep s now oneHour) sid = none) := by
  refine ⟨?_, fun s => storeGet_storeDelete_self s sid, fun s now hn => ?_⟩
  · simp [handleMessage, hmsg, h]
  · exact storeGet_sweep_of_removed s sid now oneHour (by omega)

/-- Witness for C6 at a concrete unknown identifier. -/
theorem unknown_session_not_found_witness :
    handleMessage ⟨some 7, some "hi", false⟩ oneSessionStore ⟨some "r", [], false⟩
      = (Response.jsonError 404 "Chat session not found. Please start a new session.",
         oneSessionStore) ∧
    storeGet (storeDelete oneSessionStore 7) 7 = none ∧
    storeGet (sweep oneSessionStore (7 + oneHour + 8) oneHour) 7 = none := by
  obtain ⟨h1, h2, h3⟩ := unknown_session_not_found 7 "hi" false oneSessionStore
    ⟨some "r", [], false⟩ (by decide) rfl
  exact ⟨h1, h2 oneSessionStore, h3 oneSessionStore (7 + oneHour + 8) (by decide)⟩

/-- Claim C7: a session created at T survives a sweep at
now = T + ttl - 1 and is removed by a sweep at now = T + ttl + 1; in
general the sweep keeps exactly the entries whose creation value is
not older than now - ttl. -/
theorem sweep_ttl_boundary (T ttl : Nat) (store : Store) (c : ChatSession)
    (httl : 0 < ttl) (hc : storeGet store T = some c) :
    storeGet (sweep store (T + ttl - 1) ttl) T = some c ∧
    storeGet (sweep store (T + ttl + 1) ttl) T = none ∧
    ∀ (now : Nat) (p : Nat × ChatSession),
      p ∈ sweep store now ttl ↔ p ∈ store ∧ ¬ p.1 < now - ttl := by
  refine ⟨?_, ?_, fun now p => mem_sweep_iff store now ttl p⟩
  · rw [storeGet_sweep_of_kept store T (T + ttl - 1) ttl (by omega)]
    exact hc
  · exact storeGet_sweep_of_removed store T (T + ttl + 1) ttl (by omega)

/-- Witness for C7 at a concrete session and the code TTL. -/
theorem sweep_ttl_boundary_witness :
    storeGet (sweep [(10, ChatSession.mk [])] (10 + oneHour - 1) oneHour) 10
      = some ⟨[]⟩ ∧
    storeGet (sweep [(10, ChatSession.mk [])] (10 + oneHour + 1) oneHour) 10 = none ∧
    ((10, ChatSession.mk []) ∈ sweep [(10, ChatSession.mk [])] 20 oneHour ↔
      (10, ChatSession.mk []) ∈ ([(10, ChatSession.mk [])] : Store) ∧
      ¬ (10 : Nat) < 20 - oneHour) := by
  obtain ⟨h1, h2, h3⟩ := sweep_ttl_boundary 10 oneHour [(10, ⟨[]⟩)] ⟨[]⟩ (by decide) rfl
  exact ⟨h1, h2, h3 20 (10, ⟨[]⟩)⟩

/-- Counterexample to C8: two start-session calls that observe the same
clock value (5 milliseconds) issue the same identifier, so identifiers
are not unconditionally unique for the process lifetime. -/
theorem start_ids_collide_cx :
    (runStarts [5, 5] []).1 = [5, 5] ∧
    ¬ ((runStarts [5, 5] []).1.Pairwise fun a b => a ≠ b) := by
  refine ⟨rfl, fun h => ?_⟩
  rw [runStarts_ids] at h
  exact (List.pairwise_cons.1 h).1 5 (by simp) rfl

/-- Amended C8: the issued identifiers are exactly the Date.now()
values observed by the calls, so they are unique provided no two
start-session calls observe the same clock value (same-millisecond
calls collide). -/
theorem start_ids_unique_of_distinct_times (times : List Nat) (store : Store)
    (h : times.Pairwise fun a b => a ≠ b) :
    ((runStarts times store).1.Pairwise fun a b => a ≠ b) ∧
    (runStarts times store).1 = times := by
  rw [runStarts_ids]
  exact ⟨h, rfl⟩

/-- Witness for amended C8 at distinct clock values. -/
theorem start_ids_unique_of_distinct_times_witness :
    ((runStarts [1, 2] []).1.Pairwise fun a b => a ≠ b) ∧
    (runStarts [1, 2] []).1 = [1, 2] :=
  start_ids_unique_of_distinct_times [1, 2] [] (by simp)

/-- Claim C9: a send-message request whose message field is present but
empty is rejected with the 400 missing-field error, exactly like a
missing message (the check is JS truthiness), and the store is not
modified. -/
theorem empty_message_rejected (sidOpt : Option Nat) (st : Bool) (store : Store)
    (prov : ProviderBehavior) :
    handleMessage ⟨sidOpt, some "", st⟩ store prov
      = (Response.jsonError 400 "Session ID and message are required", store) ∧
    handleMessage ⟨sidOpt, some "", st⟩ store prov
      = handleMessage ⟨sidOpt, none, st⟩ store prov := by
  cases sidOpt <;> simp [handleMessage]

/-- Claim C10: every item of a get-history response carries the
request-handling time as its timestamp (one shared value for the whole
response), and its id equals its index in the list. -/
theorem history_items_request_time (sid : Nat) (store : Store) (chat : ChatSession)
    (now : Nat) (hc : storeGet store sid = some chat) :
    handleHistory sid store now
      = Response.jsonHistory (historyItemsFrom now 0 chat.history) ∧
    ∀ (i : Nat) (hi : i < (historyItemsFrom now 0 chat.history).length),
      ((historyItemsFrom now 0 chat.history).get ⟨i, hi⟩).timestamp = now ∧
      ((historyItemsFrom now 0 chat.history).get ⟨i, hi⟩).id = i := by
  refine ⟨by simp [handleHistory, hc], fun i hi => ?_⟩
  obtain ⟨h1, h2⟩ := historyItemsFrom_get now chat.history 0 i hi
  exact ⟨h1, by simpa using h2⟩

/-- Witness for C10 at a concrete two-turn history. -/
theorem history_items_request_time_witness :
    handleHistory 1 [(1, ChatSession.mk [⟨"user", "hi"⟩, ⟨"model", "yo"⟩])] 42
      = Response.jsonHistory
          (historyItemsFrom 42 0 [⟨"user", "hi"⟩, ⟨"model", "yo"⟩]) ∧
    ((historyItemsFrom 42 0 [⟨"user", "hi"⟩, ⟨"model", "yo"⟩]).get
        ⟨1, by decide⟩).timestamp = 42 ∧
    ((historyItemsFrom 42 0 [⟨"user", "hi"⟩, ⟨"model", "yo"⟩]).get
        ⟨1, by decide⟩).id = 1 := by
  obtain ⟨h1, h2⟩ := history_items_request_time 1
    [(1, ChatSession.mk [⟨"user", "hi"⟩, ⟨"model", "yo"⟩])]
    ⟨[⟨"user", "hi"⟩, ⟨"model", "yo"⟩]⟩ 42 rfl
  exact ⟨h1, (h2 1 (by decide)).1, (h2 1 (by decide)).2⟩
